import Mathlib

/-
Shallow embedding of the request-normalization and resilient-fetch core of
the weather/stock HTTP facade (Go packages `pkg/models`, `pkg/stock`,
`pkg/weather`).  External collaborators (the HTTP transport, the JSON
decoder, the standard-library pseudo-random generator and the wall clock)
are passed in explicitly as parameters; everything else is translated
directly from the Go source.
-/

set_option maxHeartbeats 1000000

namespace Workshop

/-! ## pkg/models/common.go -/

/-- APIError from models/common.go: a tagged error with service name, human
message, and numeric code. -/
structure APIError where
  Service : String
  Message : String
  Code : Int
deriving Repr, DecidableEq

/-- NewAPIError from models/common.go. -/
def NewAPIError (service message : String) (code : Int) : APIError :=
  { Service := service, Message := message, Code := code }

/-- Coordinates from models/common.go. -/
structure Coordinates where
  Latitude : Float
  Longitude : Float

/-- Model of Go's time.Time restricted to the observations this code makes:
the wall-clock hour and minute (used by the demo generator's seed and
market-state bands) and an opaque instant tag so that two times inside the
same minute are still distinguishable values. -/
structure GoTime where
  instant : Int
  hour : Nat
  minute : Nat

/-- Timestamps stored in response metadata: either a Unix-seconds instant
(time.Unix on the Yahoo response) or a wall-clock time (time.Now in the
demo generator). -/
inductive GoTimeStamp where
  | unixSec (sec : Int)
  | wall (t : GoTime)

/-- ResponseMetadata from models/common.go. -/
structure ResponseMetadata where
  Timestamp : GoTimeStamp
  Source : String

/-! ## pkg/models/stock.go -/

/-- MarketState is a string type in the Go source (`type MarketState string`),
so it is embedded as String, not as a closed enumeration: the invariant that
produced values stay within the four constants below is a real property of
the conversion code, not of the type. -/
abbrev MarketState := String

def MarketStateRegular : MarketState := "REGULAR"

def MarketStatePremarket : MarketState := "PRE"

def MarketStatePostmarket : MarketState := "POST"

def MarketStateClosed : MarketState := "CLOSED"

/-- StockResponse from models/stock.go. -/
structure StockResponse where
  Symbol : String
  CompanyName : String
  Price : Float
  Change : Float
  ChangePercent : Float
  PreviousClose : Float
  Volume : Int
  MarketCap : Int
  MarketState : MarketState
  Currency : String
  Metadata : ResponseMetadata

/-- One element of YahooFinanceResponse.QuoteResponse.Result. -/
structure YahooQuoteResult where
  Symbol : String
  ShortName : String
  LongName : String
  RegularMarketPrice : Float
  RegularMarketChange : Float
  RegularMarketChangePercent : Float
  RegularMarketPreviousClose : Float
  RegularMarketVolume : Int
  MarketCap : Int
  Currency : String
  MarketState : String
  RegularMarketTime : Int

/-- YahooFinanceResponse from models/stock.go.  The Error field is an
interface value the converter never reads, so it is omitted. -/
structure YahooFinanceResponse where
  result : List YahooQuoteResult

/-- The market-state switch inside ConvertYahooFinanceResponse, factored
out so properties can name it: REGULAR/PRE/POST/CLOSED map to the matching
constant, anything else defaults to CLOSED. -/
def convertMarketState (s : String) : MarketState :=
  match s with
  | "REGULAR" => MarketStateRegular
  | "PRE" => MarketStatePremarket
  | "POST" => MarketStatePostmarket
  | "CLOSED" => MarketStateClosed
  | _ => MarketStateClosed

/-- ConvertYahooFinanceResponse from models/stock.go: empty result list
fails with a 404; otherwise the first result is mapped field by field, the
long name is preferred over the short name, and the market state goes
through convertMarketState. -/
def ConvertYahooFinanceResponse (response : YahooFinanceResponse) :
    Except APIError StockResponse :=
  match response.result with
  | [] => .error (NewAPIError "Yahoo Finance" "No stock data found" 404)
  | r :: _ =>
    let marketState := convertMarketState r.MarketState
    let companyName := if r.LongName = "" then r.ShortName else r.LongName
    .ok { Symbol := r.Symbol
          CompanyName := companyName
          Price := r.RegularMarketPrice
          Change := r.RegularMarketChange
          ChangePercent := r.RegularMarketChangePercent
          PreviousClose := r.RegularMarketPreviousClose
          Volume := r.RegularMarketVolume
          MarketCap := r.MarketCap
          MarketState := marketState
          Currency := r.Currency
          Metadata := { Timestamp := .unixSec r.RegularMarketTime
                        Source := "Yahoo Finance" } }

/-! ## Go standard-library string helpers

The Go code uses strings.TrimSpace, strings.ToUpper, strings.ToLower and
the built-in len (UTF-8 byte count).  They are modelled here directly over
the character list; the upper/lower maps cover the ASCII range, which is
all the validated inputs can contain. -/

/-- Whitespace as recognized by strings.TrimSpace (unicode.IsSpace): the
ASCII space characters plus NEL and NBSP. -/
def goIsSpace (c : Char) : Bool :=
  c = ' ' || c = '\t' || c = '\n' || c = '\x0b' || c = '\x0c' || c = '\r' ||
    c.toNat = 133 || c.toNat = 160

/-- strings.TrimSpace: drop whitespace from both ends. -/
def goTrimSpace (s : String) : String :=
  ⟨((s.data.dropWhile goIsSpace).reverse.dropWhile goIsSpace).reverse⟩

/-- Uppercasing of one character (ASCII range of unicode.ToUpper). -/
def goUpperChar (c : Char) : Char :=
  if 'a' ≤ c ∧ c ≤ 'z' then Char.ofNat (c.toNat - 32) else c

/-- strings.ToUpper. -/
def goToUpper (s : String) : String := ⟨s.data.map goUpperChar⟩

/-- Lowercasing of one character (ASCII range of unicode.ToLower). -/
def goLowerChar (c : Char) : Char :=
  if 'A' ≤ c ∧ c ≤ 'Z' then Char.ofNat (c.toNat + 32) else c

/-- strings.ToLower. -/
def goToLower (s : String) : String := ⟨s.data.map goLowerChar⟩

/-- UTF-8 byte size of one character. -/
def charUtf8Len (c : Char) : Nat :=
  if c.toNat < 128 then 1 else if c.toNat < 2048 then 2
  else if c.toNat < 65536 then 3 else 4

/-- Go's len on a string: the UTF-8 byte count. -/
def goLen (s : String) : Nat := s.data.foldl (fun n c => n + charUtf8Len c) 0

/-! ## External collaborators -/

/-- Outcome of one HTTP GET: a transport failure with an error text, or a
response with a status code and a body.  This models the HTTPClient
interface the Go code injects for testability. -/
inductive HttpResult where
  | failure (msg : String)
  | response (status : Int) (body : String)

/-- The abstract fetch capability: url to result. -/
abbrev HTTPClient := String → HttpResult

/-- Abstract JSON decoding of a response body into a typed value, standing
for encoding/json.Decoder.Decode: either a decode-error text or the value. -/
abbrev JSONDecoder (α : Type) := String → Except String α

/-! ## pkg/stock (client file) -/

namespace Stock

/-- The request URL built by Client.GetStockPrice.  The symbol reaching this
point is trimmed, uppercased letters, for which url.Values.Encode is the
identity, so the query string is plain concatenation. -/
def requestURL (symbol : String) : String :=
  "https://query1.finance.yahoo.com/v7/finance/quote?symbols=" ++ symbol

/-- Client.GetStockPrice: empty check, uppercase/trim normalization for the
outbound URL, HTTP GET, status check, body decode, then conversion to the
standard format.  Transport failures and decode failures both get code 500,
a non-200 status reuses the status as the error code. -/
def Client.GetStockPrice (get : HTTPClient) (decode : JSONDecoder YahooFinanceResponse)
    (symbol : String) : Except APIError StockResponse :=
  if goTrimSpace symbol = "" then
    .error (NewAPIError "Stock" "Symbol cannot be empty" 400)
  else
    let normalized := goToUpper (goTrimSpace symbol)
    match get (requestURL normalized) with
    | .failure msg =>
      .error (NewAPIError "Yahoo Finance" ("Failed to make request: " ++ msg) 500)
    | .response status body =>
      if status ≠ 200 then
        .error (NewAPIError "Yahoo Finance" ("API returned status " ++ toString status) status)
      else
        match decode body with
        | .error e =>
          .error (NewAPIError "Yahoo Finance" ("Failed to parse response: " ++ e) 500)
        | .ok yahooResp => ConvertYahooFinanceResponse yahooResp

/-- Letter test used by Client.ValidateSymbol's rune loop. -/
def isAsciiLetter (c : Char) : Bool :=
  (decide ('A' ≤ c) && decide (c ≤ 'Z')) || (decide ('a' ≤ c) && decide (c ≤ 'z'))

/-- Client.ValidateSymbol: trims, then rejects empty, length outside 1..5
(Go len, i.e. UTF-8 bytes of the trimmed string), or any non-letter rune.
Returns the error, or none when valid (Go returns nil). -/
def Client.ValidateSymbol (symbol : String) : Option APIError :=
  let trimmed := goTrimSpace symbol
  if trimmed = "" then
    some (NewAPIError "Stock" "Symbol cannot be empty" 400)
  else if goLen trimmed < 1 ∨ 5 < goLen trimmed then
    some (NewAPIError "Stock" "Symbol must be 1-5 characters long" 400)
  else if ¬ (trimmed.data.all isAsciiLetter) then
    some (NewAPIError "Stock" "Symbol must contain only letters" 400)
  else
    none

/-- Client.GetStockPriceWithValidation: validation first, then the fetch. -/
def Client.GetStockPriceWithValidation (get : HTTPClient)
    (decode : JSONDecoder YahooFinanceResponse) (symbol : String) :
    Except APIError StockResponse :=
  match Client.ValidateSymbol symbol with
  | some e => .error e
  | none => Client.GetStockPrice get decode symbol

end Stock

/-! ## pkg/stock (demo data file) -/

/-- One entry of the DemoStockData map. -/
structure DemoEntry where
  Name : String
  BasePrice : Float
  Currency : String
  MarketCap : Int

/-- DemoStockData: the fixed five-symbol demo map, looked up by exact key. -/
def DemoStockData (symbol : String) : Option DemoEntry :=
  match symbol with
  | "DDOG" => some { Name := "Datadog, Inc.", BasePrice := 125.50,
                     Currency := "USD", MarketCap := 40000000000 }
  | "AAPL" => some { Name := "Apple Inc.", BasePrice := 175.25,
                     Currency := "USD", MarketCap := 2800000000000 }
  | "GOOGL" => some { Name := "Alphabet Inc.", BasePrice := 142.75,
                      Currency := "USD", MarketCap := 1800000000000 }
  | "MSFT" => some { Name := "Microsoft Corporation", BasePrice := 415.50,
                     Currency := "USD", MarketCap := 3100000000000 }
  | "TSLA" => some { Name := "Tesla, Inc.", BasePrice := 248.75,
                     Currency := "USD", MarketCap := 790000000000 }
  | _ => none

/-- Model of math/rand seeded by rand.NewSource: the generator is a pure
function of the seed, so each draw the demo generator makes (two Float64
calls followed by one Intn call) is modelled as a function of that seed.
This captures exactly the determinism of the standard-library generator. -/
structure GoRand where
  float64First : Int → Float
  float64Second : Int → Float
  intnThird : Int → Nat → Nat

namespace Stock

/-- generateDemoStockResponse: unknown symbols fail with a 404; otherwise a
seed is derived from hour*60+minute plus the byte length of the symbol, the
price and previous close are perturbations of the base price, change and
change percent are derived from their difference, the volume is
500000 + Intn(2000000), and the market state follows fixed hour bands.
The metadata source is the demo-mode marker string. -/
def generateDemoStockResponse (R : GoRand) (now : GoTime) (symbol : String) :
    Except APIError StockResponse :=
  match DemoStockData symbol with
  | none => .error (NewAPIError "Demo Stock" "Stock symbol not found in demo data" 404)
  | some data =>
    let seed : Int := (now.hour * 60 + now.minute : Nat)
    let src : Int := seed + (goLen symbol : Nat)
    let variation := (R.float64First src - 0.5) * 0.1
    let currentPrice := data.BasePrice * (1 + variation)
    let yesterdayVariation := (R.float64Second src - 0.5) * 0.08
    let yesterdayPrice := data.BasePrice * (1 + yesterdayVariation)
    let change := currentPrice - yesterdayPrice
    let changePercent := (change / yesterdayPrice) * 100
    let volume : Int := (500000 + R.intnThird src 2000000 : Nat)
    let marketState :=
      if 9 ≤ now.hour ∧ now.hour < 16 then MarketStateRegular
      else if 4 ≤ now.hour ∧ now.hour < 9 then MarketStatePremarket
      else if 16 ≤ now.hour ∧ now.hour < 20 then MarketStatePostmarket
      else MarketStateClosed
    .ok { Symbol := symbol
          CompanyName := data.Name
          Price := currentPrice
          Change := change
          ChangePercent := changePercent
          PreviousClose := yesterdayPrice
          Volume := volume
          MarketCap := data.MarketCap
          MarketState := marketState
          Currency := data.Currency
          Metadata := { Timestamp := .wall now
                        Source := "Demo Mode (Simulated Data)" } }

/-- GetDemoStock simply forwards to generateDemoStockResponse. -/
def GetDemoStock (R : GoRand) (now : GoTime) (symbol : String) :
    Except APIError StockResponse :=
  generateDemoStockResponse R now symbol

/-! ## pkg/stock (service file) -/

/-- The minimum delay between outbound requests, in nanoseconds
(2 * time.Second). -/
def minDelay : Int := 2000000000

/-- Service.rateLimitDelay as a function of the recorded last-request time
and the current time, both in nanoseconds.  It returns the time at which
the function completes (the earliest moment the outbound call can happen)
and the new recorded last-request time.  Time model: Sleep(d) completes
exactly d after it starts, and time.Now() immediately after waking reads
the wake time.  The mutex serializes callers, so consecutive calls thread
the recorded time through sequentially. -/
def Service.rateLimitDelay (lastRequest now : Int) : Int × Int :=
  if now - lastRequest < minDelay then
    let wake := lastRequest + minDelay
    (wake, wake)
  else
    (now, now)

/-- Service.GetCurrentPrice: fetch with validation; on an APIError with
code 401, 403, 429 or at least 500 it falls back to the demo generator,
returning the demo quote on success and the original error when the demo
lookup fails; every other error is returned directly.  All errors produced
by the fetch path are APIError values, so the Go type assertion always
succeeds.  The rate-limit delay only affects timing, which the timed
wrapper below accounts for. -/
def Service.GetCurrentPrice (get : HTTPClient) (decode : JSONDecoder YahooFinanceResponse)
    (R : GoRand) (now : GoTime) (symbol : String) : Except APIError StockResponse :=
  match Client.GetStockPriceWithValidation get decode symbol with
  | .ok stock => .ok stock
  | .error apiErr =>
    if apiErr.Code = 401 ∨ apiErr.Code = 403 ∨ apiErr.Code = 429 ∨ 500 ≤ apiErr.Code then
      match GetDemoStock R now symbol with
      | .ok demoStock => .ok demoStock
      | .error _ => .error apiErr
    else
      .error apiErr

/-- Service.GetCurrentPrice with its timing behaviour: given the recorded
last-request time and the moment the request is issued, it returns the
result together with the time of the outbound call (when rateLimitDelay
completes) and the new recorded last-request time. -/
def Service.GetCurrentPriceTimed (get : HTTPClient)
    (decode : JSONDecoder YahooFinanceResponse) (R : GoRand) (wall : GoTime)
    (lastRequest now : Int) (symbol : String) :
    Except APIError StockResponse × Int × Int :=
  let timing := Service.rateLimitDelay lastRequest now
  (Service.GetCurrentPrice get decode R wall symbol, timing.1, timing.2)

/-- Service.ValidateAndNormalizeSymbol: validates, then returns
fmt.Sprintf with the lone %s verb applied to the original symbol, which is
the symbol unchanged.  The function's own comment says it returns the
normalized (uppercase, trimmed) symbol, but no normalization happens. -/
def Service.ValidateAndNormalizeSymbol (symbol : String) : Except APIError String :=
  match Client.ValidateSymbol symbol with
  | some e => .error e
  | none => .ok symbol

end Stock

/-! ## pkg/models/common.go (weather side) -/

/-- WeatherCondition is a string type in the Go source
(`type WeatherCondition string`), embedded as String. -/
abbrev WeatherCondition := String

def Clear : WeatherCondition := "clear"

def PartlyCloudy : WeatherCondition := "partly_cloudy"

def Cloudy : WeatherCondition := "cloudy"

def Overcast : WeatherCondition := "overcast"

def Fog : WeatherCondition := "fog"

def Drizzle : WeatherCondition := "drizzle"

def Rain : WeatherCondition := "rain"

def Snow : WeatherCondition := "snow"

def Thunderstorm : WeatherCondition := "thunderstorm"

def Unknown : WeatherCondition := "unknown"

/-- WeatherResponse from models/common.go. -/
structure WeatherResponse where
  City : String
  Country : String
  Temperature : Float
  Condition : WeatherCondition
  Description : String
  IsDay : Bool
  Coordinates : Coordinates
  Metadata : ResponseMetadata

/-- WeatherCodeMap: the fixed lookup from Open-Meteo weather codes to
(condition, description), embedded as an exact-match lookup function. -/
def WeatherCodeMap (code : Int) : Option (WeatherCondition × String) :=
  if code = 0 then some (Clear, "Clear sky")
  else if code = 1 then some (PartlyCloudy, "Mainly clear")
  else if code = 2 then some (PartlyCloudy, "Partly cloudy")
  else if code = 3 then some (Cloudy, "Overcast")
  else if code = 45 then some (Fog, "Fog")
  else if code = 48 then some (Fog, "Depositing rime fog")
  else if code = 51 then some (Drizzle, "Light drizzle")
  else if code = 53 then some (Drizzle, "Moderate drizzle")
  else if code = 55 then some (Drizzle, "Dense drizzle")
  else if code = 61 then some (Rain, "Slight rain")
  else if code = 63 then some (Rain, "Moderate rain")
  else if code = 65 then some (Rain, "Heavy rain")
  else if code = 71 then some (Snow, "Slight snow fall")
  else if code = 73 then some (Snow, "Moderate snow fall")
  else if code = 75 then some (Snow, "Heavy snow fall")
  else if code = 95 then some (Thunderstorm, "Thunderstorm")
  else if code = 96 then some (Thunderstorm, "Thunderstorm with slight hail")
  else if code = 99 then some (Thunderstorm, "Thunderstorm with heavy hail")
  else none

/-- GetWeatherCondition: table hit returns the pair, otherwise the unknown
condition with its fixed description.  Total, never errors. -/
def GetWeatherCondition (code : Int) : WeatherCondition × String :=
  match WeatherCodeMap code with
  | some w => w
  | none => (Unknown, "Unknown weather condition")

/-! ## pkg/weather/geocode.go -/

namespace Weather

/-- One element of GeocodeResponse.Results. -/
structure GeocodeResult where
  Name : String
  Country : String
  CountryCode : String
  Latitude : Float
  Longitude : Float
  Admin1 : String

/-- GeocodeResponse from geocode.go. -/
structure GeocodeResponse where
  Results : List GeocodeResult

/-- The geocoding request URL built by Geocoder.GetCoordinates; the exact
query-string encoding of the city is irrelevant to the properties below, so
it is plain concatenation. -/
def geocodeRequestURL (city : String) : String :=
  "https://geocoding-api.open-meteo.com/v1/search?count=1&format=json&language=en&name=" ++ city

/-- Geocoder.GetCoordinates: empty check, HTTP GET, status check, body
decode, empty-results check, then the first result's coordinates and
country. -/
def Geocoder.GetCoordinates (get : HTTPClient) (decodeGeo : JSONDecoder GeocodeResponse)
    (city : String) : Except APIError (Coordinates × String) :=
  if goTrimSpace city = "" then
    .error (NewAPIError "Geocoding" "City name cannot be empty" 400)
  else
    match get (geocodeRequestURL city) with
    | .failure msg =>
      .error (NewAPIError "Geocoding" ("Failed to make request: " ++ msg) 500)
    | .response status body =>
      if status ≠ 200 then
        .error (NewAPIError "Geocoding" ("API returned status " ++ toString status) status)
      else
        match decodeGeo body with
        | .error e =>
          .error (NewAPIError "Geocoding" ("Failed to parse response: " ++ e) 500)
        | .ok geo =>
          match geo.Results with
          | [] => .error (NewAPIError "Geocoding" ("City \x27" ++ city ++ "\x27 not found") 404)
          | r :: _ => .ok ({ Latitude := r.Latitude, Longitude := r.Longitude }, r.Country)

/-- CityCoordinates: the static in-memory cache of six known cities, keyed
by lowercase name. -/
def CityCoordinates (city : String) : Option (Coordinates × String) :=
  match city with
  | "stuttgart" => some ({ Latitude := 48.7758, Longitude := 9.1829 }, "Germany")
  | "berlin" => some ({ Latitude := 52.5200, Longitude := 13.4050 }, "Germany")
  | "munich" => some ({ Latitude := 48.1351, Longitude := 11.5820 }, "Germany")
  | "london" => some ({ Latitude := 51.5074, Longitude := -0.1278 }, "United Kingdom")
  | "paris" => some ({ Latitude := 48.8566, Longitude := 2.3522 }, "France")
  | "new york" => some ({ Latitude := 40.7128, Longitude := -74.0060 }, "United States")
  | _ => none

/-- Geocoder.GetCoordinatesWithCache: lowercases and trims the city, tries
the static cache, and only on a miss falls back to the remote lookup with
the original city string. -/
def Geocoder.GetCoordinatesWithCache (get : HTTPClient)
    (decodeGeo : JSONDecoder GeocodeResponse) (city : String) :
    Except APIError (Coordinates × String) :=
  let cityLower := goToLower (goTrimSpace city)
  match CityCoordinates cityLower with
  | some cached => .ok cached
  | none => Geocoder.GetCoordinates get decodeGeo city

/-! ## pkg/weather (service file) -/

/-- Service.ValidateLocation: rejects the empty string, then byte length
below 2, then byte length above 100, each with a 400 error; otherwise
valid (Go returns nil). -/
def Service.ValidateLocation (location : String) : Option APIError :=
  if location = "" then
    some (NewAPIError "Weather Service" "Location cannot be empty" 400)
  else if goLen location < 2 then
    some (NewAPIError "Weather Service" "Location must be at least 2 characters long" 400)
  else if 100 < goLen location then
    some (NewAPIError "Weather Service" "Location must be less than 100 characters" 400)
  else
    none

/-- Service.GetWeatherWithValidation: validation first; only when it passes
is the weather pipeline (Service.GetCurrentWeather, which delegates to
Client.GetWeather and is abstracted here as a collaborator) invoked. -/
def Service.GetWeatherWithValidation (getWeather : String → Except APIError WeatherResponse)
    (location : String) : Except APIError WeatherResponse :=
  match Service.ValidateLocation location with
  | some e => .error e
  | none => getWeather location

end Weather

/-! ## Concrete fixtures used to instantiate the properties -/

/-- A concrete pseudo-random generator instance. -/
def constRand : GoRand :=
  { float64First := fun _ => 0.5
    float64Second := fun _ => 0.5
    intnThird := fun _ _ => 0 }

/-- A concrete wall-clock time, 10:30. -/
def tMorning : GoTime := { instant := 0, hour := 10, minute := 30 }

/-- A different instant inside the same wall-clock minute as tMorning. -/
def tMorningLater : GoTime := { instant := 7, hour := 10, minute := 30 }

/-- An HTTP client whose every response is status 429 with an empty body. -/
def get429 : HTTPClient := fun _ => .response 429 ""

/-- An HTTP client whose every response is status 200 with an undecodable
body. -/
def get200Garbage : HTTPClient := fun _ => .response 200 "garbage"

/-- A decoder that always fails, standing for a malformed body. -/
def decodeAlwaysFails : JSONDecoder YahooFinanceResponse :=
  fun _ => .error "unexpected end of JSON input"

/-- A geocode decoder that always fails; never reached in the cached case. -/
def decodeGeoAlwaysFails : JSONDecoder Weather.GeocodeResponse :=
  fun _ => .error "unexpected end of JSON input"

/-- Observation of a fetch outcome: the metadata source on success, none on
error.  Used to state, without exhibiting whole quote records, which data
source a successful result came from. -/
def sourceOf (r : Except APIError StockResponse) : Option String :=
  match r with
  | .ok q => some q.Metadata.Source
  | .error _ => none

/-! ## Helper lemmas shared by the properties below -/

/-- A symbol present in the demo map always yields a demo quote, and its
metadata source is the demo-mode marker. -/
theorem getDemoStock_of_mem (R : GoRand) (now : GoTime) (symbol : String)
    (d : DemoEntry) (hd : DemoStockData symbol = some d) :
    ∃ q, Stock.GetDemoStock R now symbol = .ok q ∧
      q.Metadata.Source = "Demo Mode (Simulated Data)" := by
  cases hq : Stock.GetDemoStock R now symbol with
  | error er =>
    exfalso
    simp only [Stock.GetDemoStock, Stock.generateDemoStockResponse, hd] at hq
    exact Except.noConfusion hq
  | ok q =>
    refine ⟨q, rfl, ?_⟩
    simp only [Stock.GetDemoStock, Stock.generateDemoStockResponse, hd] at hq
    injection hq with h
    rw [← h]

/-- A symbol absent from the demo map makes the demo generator fail with
its 404 error. -/
theorem getDemoStock_of_not_mem (R : GoRand) (now : GoTime) (symbol : String)
    (hd : DemoStockData symbol = none) :
    Stock.GetDemoStock R now symbol =
      .error (NewAPIError "Demo Stock" "Stock symbol not found in demo data" 404) := by
  simp only [Stock.GetDemoStock, Stock.generateDemoStockResponse, hd]

/-- Shape of Service.GetCurrentPrice when the validated fetch fails: the
decision table of the fallback policy. -/
theorem getCurrentPrice_of_error (get : HTTPClient)
    (decode : JSONDecoder YahooFinanceResponse) (R : GoRand) (now : GoTime)
    (symbol : String) (e : APIError)
    (hup : Stock.Client.GetStockPriceWithValidation get decode symbol = .error e) :
    Stock.Service.GetCurrentPrice get decode R now symbol =
      if e.Code = 401 ∨ e.Code = 403 ∨ e.Code = 429 ∨ 500 ≤ e.Code then
        match Stock.GetDemoStock R now symbol with
        | .ok demoStock => .ok demoStock
        | .error _ => .error e
      else
        .error e := by
  unfold Stock.Service.GetCurrentPrice
  rw [hup]

/-- Recoverable upstream error and demo hit: the demo quote is returned. -/
theorem getCurrentPrice_recovers (get : HTTPClient)
    (decode : JSONDecoder YahooFinanceResponse) (R : GoRand) (now : GoTime)
    (symbol : String) (e : APIError) (d : DemoEntry)
    (hup : Stock.Client.GetStockPriceWithValidation get decode symbol = .error e)
    (hcode : e.Code = 401 ∨ e.Code = 403 ∨ e.Code = 429 ∨ 500 ≤ e.Code)
    (hd : DemoStockData symbol = some d) :
    ∃ q, Stock.Service.GetCurrentPrice get decode R now symbol = .ok q ∧
      q.Metadata.Source = "Demo Mode (Simulated Data)" := by
  obtain ⟨q, hq, hs⟩ := getDemoStock_of_mem R now symbol d hd
  refine ⟨q, ?_, hs⟩
  rw [getCurrentPrice_of_error get decode R now symbol e hup, if_pos hcode, hq]

/-- Recoverable upstream error but demo miss: the original error is
returned. -/
theorem getCurrentPrice_keeps_error_on_demo_miss (get : HTTPClient)
    (decode : JSONDecoder YahooFinanceResponse) (R : GoRand) (now : GoTime)
    (symbol : String) (e : APIError)
    (hup : Stock.Client.GetStockPriceWithValidation get decode symbol = .error e)
    (hcode : e.Code = 401 ∨ e.Code = 403 ∨ e.Code = 429 ∨ 500 ≤ e.Code)
    (hd : DemoStockData symbol = none) :
    Stock.Service.GetCurrentPrice get decode R now symbol = .error e := by
  rw [getCurrentPrice_of_error get decode R now symbol e hup, if_pos hcode,
    getDemoStock_of_not_mem R now symbol hd]

/-- Non-recoverable error codes: the original error is returned directly. -/
theorem getCurrentPrice_no_fallback (get : HTTPClient)
    (decode : JSONDecoder YahooFinanceResponse) (R : GoRand) (now : GoTime)
    (symbol : String) (e : APIError)
    (hup : Stock.Client.GetStockPriceWithValidation get decode symbol = .error e)
    (hcode : ¬ (e.Code = 401 ∨ e.Code = 403 ∨ e.Code = 429 ∨ 500 ≤ e.Code)) :
    Stock.Service.GetCurrentPrice get decode R now symbol = .error e := by
  rw [getCurrentPrice_of_error get decode R now symbol e hup, if_neg hcode]

/-! ## Claim properties -/

/-- C1: the specification states that ValidateAndNormalizeSymbol returns
the uppercase, trimmed form of every symbol matching the letters-only
pattern.  The code evaluated at the failing input "ddog" instead returns
the symbol unchanged and not its uppercase form, and a padded variant is
likewise passed through unchanged after validating successfully, so the
normalization the function's own comment promises never happens. -/
theorem C1_validateAndNormalize_returns_input_unchanged :
    Stock.Service.ValidateAndNormalizeSymbol "ddog" = Except.ok "ddog" ∧
    Stock.Service.ValidateAndNormalizeSymbol "ddog" ≠ Except.ok "DDOG" ∧
    Stock.Service.ValidateAndNormalizeSymbol " DDOG " = Except.ok " DDOG " := by
  refine ⟨rfl, ?_, rfl⟩
  intro h
  have h2 : Stock.Service.ValidateAndNormalizeSymbol "ddog" = Except.ok "ddog" := rfl
  rw [h] at h2
  exact absurd (Except.ok.inj h2) (by decide)

/-- C2: when the validated fetch fails with an APIError whose code is 401,
403, 429 or at least 500, GetCurrentPrice returns a simulated quote whose
metadata source is the demo-mode marker when the symbol is in the demo
set, returns the original upstream error when the symbol is not in the
demo set, and for every other error code returns the original error
directly without fallback. -/
theorem C2_demo_fallback_policy (get : HTTPClient)
    (decode : JSONDecoder YahooFinanceResponse) (R : GoRand) (now : GoTime)
    (symbol : String) (e : APIError)
    (hup : Stock.Client.GetStockPriceWithValidation get decode symbol = .error e) :
    ((e.Code = 401 ∨ e.Code = 403 ∨ e.Code = 429 ∨ 500 ≤ e.Code) →
      (∀ d, DemoStockData symbol = some d →
        ∃ q, Stock.Service.GetCurrentPrice get decode R now symbol = .ok q ∧
          q.Metadata.Source = "Demo Mode (Simulated Data)") ∧
      (DemoStockData symbol = none →
        Stock.Service.GetCurrentPrice get decode R now symbol = .error e)) ∧
    (¬ (e.Code = 401 ∨ e.Code = 403 ∨ e.Code = 429 ∨ 500 ≤ e.Code) →
      Stock.Service.GetCurrentPrice get decode R now symbol = .error e) := by
  constructor
  · intro hcode
    constructor
    · intro d hd
      exact getCurrentPrice_recovers get decode R now symbol e d hup hcode hd
    · intro hd
      exact getCurrentPrice_keeps_error_on_demo_miss get decode R now symbol e hup hcode hd
  · intro hcode
    exact getCurrentPrice_no_fallback get decode R now symbol e hup hcode

/-- Witness for C2: a concrete 429 upstream answer for the demo symbol
DDOG makes GetCurrentPrice return a successful quote sourced from demo
mode. -/
theorem C2_demo_fallback_policy_witness :
    sourceOf (Stock.Service.GetCurrentPrice get429 decodeAlwaysFails constRand tMorning "DDOG") =
      some "Demo Mode (Simulated Data)" := by
  obtain ⟨q, hq, hs⟩ :=
    ((C2_demo_fallback_policy get429 decodeAlwaysFails constRand tMorning "DDOG"
        (NewAPIError "Yahoo Finance" ("API returned status " ++ toString (429 : Int)) 429)
        rfl).1
      (Or.inr (Or.inr (Or.inl rfl)))).1
      { Name := "Datadog, Inc.", BasePrice := 125.50, Currency := "USD",
        MarketCap := 40000000000 } rfl
  rw [hq]
  simp only [sourceOf]
  rw [hs]

/-- C3 counterexample: a 200 response whose body fails to decode yields a
parse error carrying code 500, and for the demo symbol DDOG the fetcher
does NOT propagate that error: it substitutes a demo-mode quote, contrary
to the claim that decode failures always propagate unchanged. -/
theorem C3_parse_error_counterexample :
    Stock.Client.GetStockPriceWithValidation get200Garbage decodeAlwaysFails "DDOG" =
      .error (NewAPIError "Yahoo Finance"
        ("Failed to parse response: " ++ "unexpected end of JSON input") 500) ∧
    Stock.Service.GetCurrentPrice get200Garbage decodeAlwaysFails constRand tMorning "DDOG" ≠
      .error (NewAPIError "Yahoo Finance"
        ("Failed to parse response: " ++ "unexpected end of JSON input") 500) ∧
    sourceOf (Stock.Service.GetCurrentPrice get200Garbage decodeAlwaysFails constRand tMorning "DDOG") =
      some "Demo Mode (Simulated Data)" := by
  refine ⟨rfl, ?_, rfl⟩
  intro h
  have hsrc : sourceOf (Stock.Service.GetCurrentPrice get200Garbage decodeAlwaysFails
      constRand tMorning "DDOG") = some "Demo Mode (Simulated Data)" := rfl
  rw [h] at hsrc
  simp only [sourceOf] at hsrc
  exact Option.noConfusion hsrc

/-- C3 amended: a decode failure on a 200-status response produces an
error with code 500, which lies in the recoverable class, so for symbols
in the demo set the fetcher substitutes a demo-mode quote; only for
symbols outside the demo set does the parse error propagate unchanged to
the caller. -/
theorem C3_parse_error_joins_recoverable_class (get : HTTPClient)
    (decode : JSONDecoder YahooFinanceResponse) (R : GoRand) (now : GoTime)
    (symbol body msg : String)
    (hval : Stock.Client.ValidateSymbol symbol = none)
    (hget : get (Stock.requestURL (goToUpper (goTrimSpace symbol))) = .response 200 body)
    (hdec : decode body = .error msg) :
    (DemoStockData symbol = none →
      Stock.Service.GetCurrentPrice get decode R now symbol =
        .error (NewAPIError "Yahoo Finance" ("Failed to parse response: " ++ msg) 500)) ∧
    (∀ d, DemoStockData symbol = some d →
      ∃ q, Stock.Service.GetCurrentPrice get decode R now symbol = .ok q ∧
        q.Metadata.Source = "Demo Mode (Simulated Data)") := by
  have ht : ¬ (goTrimSpace symbol = "") := by
    intro ht
    simp only [Stock.Client.ValidateSymbol, ht, if_pos] at hval
    exact Option.noConfusion hval
  have hgs : Stock.Client.GetStockPrice get decode symbol =
      .error (NewAPIError "Yahoo Finance" ("Failed to parse response: " ++ msg) 500) := by
    unfold Stock.Client.GetStockPrice
    rw [if_neg ht]
    simp only [hget]
    rw [if_neg (by decide), hdec]
  have hfetch : Stock.Client.GetStockPriceWithValidation get decode symbol =
      .error (NewAPIError "Yahoo Finance" ("Failed to parse response: " ++ msg) 500) := by
    simp only [Stock.Client.GetStockPriceWithValidation, hval]
    exact hgs
  constructor
  · intro hd
    exact getCurrentPrice_keeps_error_on_demo_miss get decode R now symbol _ hfetch
      (Or.inr (Or.inr (Or.inr (le_refl 500)))) hd
  · intro d hd
    exact getCurrentPrice_recovers get decode R now symbol _ d hfetch
      (Or.inr (Or.inr (Or.inr (le_refl 500)))) hd

/-- Witness for C3 as amended: a concrete decode failure for a symbol
outside the demo set propagates the code-500 parse error unchanged. -/
theorem C3_parse_error_joins_recoverable_class_witness :
    Stock.Service.GetCurrentPrice get200Garbage decodeAlwaysFails constRand tMorning "QQQ" =
      .error (NewAPIError "Yahoo Finance"
        ("Failed to parse response: " ++ "unexpected end of JSON input") 500) :=
  (C3_parse_error_joins_recoverable_class get200Garbage decodeAlwaysFails constRand
    tMorning "QQQ" "garbage" "unexpected end of JSON input" rfl rfl rfl).1 rfl

/-- C4: for two consecutive stock requests through the same fetcher
instance issued less than 2 seconds apart, the second request's outbound
call happens no earlier than the first call's recorded time plus 2
seconds; and the gate is shared across callers rather than per-symbol: the
timing of a request does not depend on the symbol requested. -/
theorem C4_rate_limit_min_two_seconds_between_calls (get : HTTPClient)
    (decode : JSONDecoder YahooFinanceResponse) (R : GoRand) (wall : GoTime)
    (last0 t1 t2 : Int) (s1 s2 : String)
    (r1 : Except APIError StockResponse) (call1 rec1 : Int)
    (r2 : Except APIError StockResponse) (call2 rec2 : Int)
    (h1 : Stock.Service.GetCurrentPriceTimed get decode R wall last0 t1 s1 = (r1, call1, rec1))
    (h2 : Stock.Service.GetCurrentPriceTimed get decode R wall rec1 t2 s2 = (r2, call2, rec2))
    (hlt : t2 - t1 < Stock.minDelay) :
    rec1 + Stock.minDelay ≤ call2 ∧
    (Stock.Service.GetCurrentPriceTimed get decode R wall last0 t1 s2).2 = (call1, rec1) := by
  simp only [Stock.Service.GetCurrentPriceTimed, Stock.Service.rateLimitDelay,
    Stock.minDelay, Prod.mk.injEq] at h1 h2 ⊢
  obtain ⟨-, h1t⟩ := h1
  obtain ⟨-, h2t⟩ := h2
  simp only [Stock.minDelay] at hlt
  constructor
  · split at h1t <;> split at h2t <;> omega
  · exact h1t

/-- Witness for C4: with the last request recorded at 0 ns, a first request
at 3 s and a second request 1 s later, the second outbound call happens at
the first call's recorded time plus the full 2-second delay. -/
theorem C4_rate_limit_min_two_seconds_between_calls_witness :
    (3000000000 : Int) + Stock.minDelay ≤
      (Stock.Service.GetCurrentPriceTimed get429 decodeAlwaysFails constRand tMorning
        3000000000 4000000000 "AAPL").2.1 :=
  (C4_rate_limit_min_two_seconds_between_calls get429 decodeAlwaysFails constRand tMorning
    0 3000000000 4000000000 "DDOG" "AAPL" _ _ _ _ _ _ rfl rfl (by decide)).1

/-- C5: the market-state string of the first upstream result maps REGULAR,
PRE, POST and CLOSED to the matching canonical constant and every other
string to CLOSED, so every converted quote's market state is one of the
four canonical values. -/
theorem C5_market_state_mapping :
    convertMarketState "REGULAR" = MarketStateRegular ∧
    convertMarketState "PRE" = MarketStatePremarket ∧
    convertMarketState "POST" = MarketStatePostmarket ∧
    convertMarketState "CLOSED" = MarketStateClosed ∧
    (∀ s : String, s ≠ "REGULAR" → s ≠ "PRE" → s ≠ "POST" →
      convertMarketState s = MarketStateClosed) ∧
    (∀ resp q, ConvertYahooFinanceResponse resp = .ok q →
      q.MarketState = MarketStateRegular ∨ q.MarketState = MarketStatePremarket ∨
      q.MarketState = MarketStatePostmarket ∨ q.MarketState = MarketStateClosed) := by
  have hall : ∀ s : String, convertMarketState s = MarketStateRegular ∨
      convertMarketState s = MarketStatePremarket ∨
      convertMarketState s = MarketStatePostmarket ∨
      convertMarketState s = MarketStateClosed := by
    intro s
    unfold convertMarketState
    split <;> simp
  refine ⟨rfl, rfl, rfl, rfl, ?_, ?_⟩
  · intro s h1 h2 h3
    unfold convertMarketState
    split <;> simp_all
  · intro resp q h
    cases hr : resp.result with
    | nil =>
      rw [ConvertYahooFinanceResponse.eq_def, hr] at h
      exact Except.noConfusion h
    | cons r rest =>
      rw [ConvertYahooFinanceResponse.eq_def, hr] at h
      simp only at h
      injection h with h
      rw [← h]
      exact hall r.MarketState

/-- Witness for C5: an unrecognized upstream market-state string maps to
CLOSED. -/
theorem C5_market_state_mapping_witness :
    convertMarketState "POSTX" = MarketStateClosed :=
  C5_market_state_mapping.2.2.2.2.1 "POSTX" (by decide) (by decide) (by decide)

/-- C6: GetWeatherCondition is total and pure: on each of the 18 table
codes it returns the documented condition and description, and on every
code outside the table it returns the unknown condition with its fixed
description. -/
theorem C6_weather_condition_total_mapping :
    GetWeatherCondition 0 = (Clear, "Clear sky") ∧
    GetWeatherCondition 1 = (PartlyCloudy, "Mainly clear") ∧
    GetWeatherCondition 2 = (PartlyCloudy, "Partly cloudy") ∧
    GetWeatherCondition 3 = (Cloudy, "Overcast") ∧
    GetWeatherCondition 45 = (Fog, "Fog") ∧
    GetWeatherCondition 48 = (Fog, "Depositing rime fog") ∧
    GetWeatherCondition 51 = (Drizzle, "Light drizzle") ∧
    GetWeatherCondition 53 = (Drizzle, "Moderate drizzle") ∧
    GetWeatherCondition 55 = (Drizzle, "Dense drizzle") ∧
    GetWeatherCondition 61 = (Rain, "Slight rain") ∧
    GetWeatherCondition 63 = (Rain, "Moderate rain") ∧
    GetWeatherCondition 65 = (Rain, "Heavy rain") ∧
    GetWeatherCondition 71 = (Snow, "Slight snow fall") ∧
    GetWeatherCondition 73 = (Snow, "Moderate snow fall") ∧
    GetWeatherCondition 75 = (Snow, "Heavy snow fall") ∧
    GetWeatherCondition 95 = (Thunderstorm, "Thunderstorm") ∧
    GetWeatherCondition 96 = (Thunderstorm, "Thunderstorm with slight hail") ∧
    GetWeatherCondition 99 = (Thunderstorm, "Thunderstorm with heavy hail") ∧
    (∀ code : Int,
      code ∉ ([0, 1, 2, 3, 45, 48, 51, 53, 55, 61, 63, 65, 71, 73, 75, 95, 96, 99] : List Int) →
      GetWeatherCondition code = (Unknown, "Unknown weather condition")) := by
  refine ⟨rfl, rfl, rfl, rfl, rfl, rfl, rfl, rfl, rfl, rfl, rfl, rfl, rfl, rfl, rfl, rfl,
    rfl, rfl, ?_⟩
  intro code hc
  simp only [List.mem_cons, List.not_mem_nil, or_false, not_or] at hc
  obtain ⟨h0, h1, h2, h3, h45, h48, h51, h53, h55, h61, h63, h65, h71, h73, h75, h95,
    h96, h99⟩ := hc
  simp [GetWeatherCondition, WeatherCodeMap, h0, h1, h2, h3, h45, h48, h51, h53, h55,
    h61, h63, h65, h71, h73, h75, h95, h96, h99]

/-- Witness for C6: a code outside the table returns the unknown pair. -/
theorem C6_weather_condition_total_mapping_witness :
    GetWeatherCondition 42 = (Unknown, "Unknown weather condition") :=
  C6_weather_condition_total_mapping.2.2.2.2.2.2.2.2.2.2.2.2.2.2.2.2.2.2 42 (by decide)

/-- C7: every case or surrounding-whitespace variant of Stuttgart resolves
through the static cache to the fixed coordinates and country Germany,
independently of the network client and decoder, i.e. without any remote
call. -/
theorem C7_stuttgart_resolved_from_cache (get : HTTPClient)
    (decodeGeo : JSONDecoder Weather.GeocodeResponse) (city : String)
    (h : goToLower (goTrimSpace city) = "stuttgart") :
    Weather.Geocoder.GetCoordinatesWithCache get decodeGeo city =
      .ok ({ Latitude := 48.7758, Longitude := 9.1829 }, "Germany") := by
  simp only [Weather.Geocoder.GetCoordinatesWithCache, h]
  rfl

/-- Witness for C7: the padded uppercase variant of Stuttgart hits the
cache even with a network client that only ever answers 429 and a decoder
that always fails. -/
theorem C7_stuttgart_resolved_from_cache_witness :
    Weather.Geocoder.GetCoordinatesWithCache get429 decodeGeoAlwaysFails " STUTTGART " =
      .ok ({ Latitude := 48.7758, Longitude := 9.1829 }, "Germany") :=
  C7_stuttgart_resolved_from_cache get429 decodeGeoAlwaysFails " STUTTGART " rfl

/-- C8: a location whose byte length is outside 2..100 (the empty string
included) fails validation with a 400 error and the validated fetch
returns that error without consulting the weather pipeline; a location
with length in 2..100 passes validation and the fetch proceeds. -/
theorem C8_location_validation (location : String) :
    ((goLen location < 2 ∨ 100 < goLen location) →
      ∃ e, Weather.Service.ValidateLocation location = some e ∧ e.Code = 400 ∧
        ∀ gw, Weather.Service.GetWeatherWithValidation gw location = .error e) ∧
    (2 ≤ goLen location → goLen location ≤ 100 →
      Weather.Service.ValidateLocation location = none ∧
      ∀ gw, Weather.Service.GetWeatherWithValidation gw location = gw location) := by
  have hval : ∀ e, Weather.Service.ValidateLocation location = some e →
      ∀ gw, Weather.Service.GetWeatherWithValidation gw location = .error e := by
    intro e he gw
    simp only [Weather.Service.GetWeatherWithValidation, he]
  constructor
  · intro hbad
    by_cases he : location = ""
    · subst he
      exact ⟨_, rfl, rfl, hval _ rfl⟩
    · rcases hbad with hlt | hgt
      · have hv : Weather.Service.ValidateLocation location =
            some (NewAPIError "Weather Service"
              "Location must be at least 2 characters long" 400) := by
          unfold Weather.Service.ValidateLocation
          rw [if_neg he, if_pos hlt]
        exact ⟨_, hv, rfl, hval _ hv⟩
      · have h2 : ¬ (goLen location < 2) := by omega
        have hv : Weather.Service.ValidateLocation location =
            some (NewAPIError "Weather Service"
              "Location must be less than 100 characters" 400) := by
          unfold Weather.Service.ValidateLocation
          rw [if_neg he, if_neg h2, if_pos hgt]
        exact ⟨_, hv, rfl, hval _ hv⟩
  · intro hge hle
    have he : location ≠ "" := by
      intro h
      subst h
      have hz : goLen "" = 0 := rfl
      omega
    have h2 : ¬ (goLen location < 2) := by omega
    have h100 : ¬ (100 < goLen location) := by omega
    have hv : Weather.Service.ValidateLocation location = none := by
      unfold Weather.Service.ValidateLocation
      rw [if_neg he, if_neg h2, if_neg h100]
    refine ⟨hv, ?_⟩
    intro gw
    simp only [Weather.Service.GetWeatherWithValidation, hv]

/-- Witness for C8: the one-character location X is rejected with the 400
length error before the weather pipeline is consulted. -/
theorem C8_location_validation_witness :
    Weather.Service.GetWeatherWithValidation
        (fun _ => .error (NewAPIError "Weather" "unused" 500)) "X" =
      .error (NewAPIError "Weather Service"
        "Location must be at least 2 characters long" 400) := by
  obtain ⟨e, he, -, hgw⟩ := (C8_location_validation "X").1 (by decide)
  have hx : Weather.Service.ValidateLocation "X" =
      some (NewAPIError "Weather Service"
        "Location must be at least 2 characters long" 400) := rfl
  rw [he] at hx
  rw [hgw, Option.some.inj hx]

/-- C9: the demo generator is deterministic within a wall-clock minute: for
a demo-set symbol, two generations whose times agree on hour and minute
produce the same price, change, change percent, previous close and volume,
because the pseudo-random seed is hour*60+minute plus the symbol length. -/
theorem C9_demo_deterministic_within_minute (R : GoRand) (t1 t2 : GoTime)
    (symbol : String) (q1 q2 : StockResponse)
    (hh : t1.hour = t2.hour) (hm : t1.minute = t2.minute)
    (hq1 : Stock.generateDemoStockResponse R t1 symbol = .ok q1)
    (hq2 : Stock.generateDemoStockResponse R t2 symbol = .ok q2) :
    q1.Price = q2.Price ∧ q1.Change = q2.Change ∧ q1.ChangePercent = q2.ChangePercent ∧
    q1.PreviousClose = q2.PreviousClose ∧ q1.Volume = q2.Volume := by
  cases hd : DemoStockData symbol with
  | none =>
    simp only [Stock.generateDemoStockResponse, hd] at hq1
    exact Except.noConfusion hq1
  | some d =>
    simp only [Stock.generateDemoStockResponse, hd] at hq1 hq2
    injection hq1 with h1
    injection hq2 with h2
    rw [← h1, ← h2, hh, hm]
    exact ⟨rfl, rfl, rfl, rfl, rfl⟩

/-- Witness for C9: two distinct instants in the same minute produce the
same demo price for DDOG. -/
theorem C9_demo_deterministic_within_minute_witness :
    tMorning.hour = tMorningLater.hour ∧ tMorning.minute = tMorningLater.minute ∧
    tMorning.instant ≠ tMorningLater.instant ∧
    (Stock.generateDemoStockResponse constRand tMorning "DDOG").map StockResponse.Price =
      (Stock.generateDemoStockResponse constRand tMorningLater "DDOG").map StockResponse.Price := by
  refine ⟨rfl, rfl, by decide, ?_⟩
  have h := C9_demo_deterministic_within_minute constRand tMorning tMorningLater "DDOG"
    _ _ rfl rfl rfl rfl
  exact congrArg Except.ok h.1

/-- C10: the demo fallback looks the symbol up exactly as the caller passed
it, with no uppercase or trim normalization: lowercase and padded variants
of DDOG miss the demo map even though DDOG itself is present, and whenever
the symbol misses the demo map a recoverable upstream error is returned to
the caller unchanged instead of a simulated quote. -/
theorem C10_demo_lookup_uses_raw_symbol :
    DemoStockData "ddog" = none ∧ DemoStockData " DDOG " = none ∧
    (∃ d, DemoStockData "DDOG" = some d) ∧
    ∀ (get : HTTPClient) (decode : JSONDecoder YahooFinanceResponse) (R : GoRand)
      (now : GoTime) (symbol : String) (e : APIError),
      DemoStockData symbol = none →
      Stock.Client.GetStockPriceWithValidation get decode symbol = .error e →
      (e.Code = 401 ∨ e.Code = 403 ∨ e.Code = 429 ∨ 500 ≤ e.Code) →
      Stock.Service.GetCurrentPrice get decode R now symbol = .error e := by
  refine ⟨rfl, rfl, ⟨_, rfl⟩, ?_⟩
  intro get decode R now symbol e hd hup hcode
  exact getCurrentPrice_keeps_error_on_demo_miss get decode R now symbol e hup hcode hd

/-- Witness for C10: the lowercase variant ddog with a 429 upstream answer
gets the original 429 error back, not a demo quote. -/
theorem C10_demo_lookup_uses_raw_symbol_witness :
    Stock.Service.GetCurrentPrice get429 decodeAlwaysFails constRand tMorning "ddog" =
      .error (NewAPIError "Yahoo Finance" ("API returned status " ++ toString (429 : Int)) 429) :=
  C10_demo_lookup_uses_raw_symbol.2.2.2 get429 decodeAlwaysFails constRand tMorning "ddog"
    (NewAPIError "Yahoo Finance" ("API returned status " ++ toString (429 : Int)) 429)
    rfl rfl (Or.inr (Or.inr (Or.inl rfl)))

end Workshop
